import Mathlib

/-!
Verification of the SEIR simulation engine in `model.py`.

Numbers are embedded as exact rationals (`ℚ`); the growth-rate formula,
which takes a square root, lives in `ℝ`.  The numerical integrator
(`scipy.integrate.odeint`, an external library) is modelled as an explicit
fixed-step integrator sampling one state per integer day, as described in
the integrator section of the design.
-/

namespace SEIR

/-- Truncation toward zero, the cast numpy performs when a Python float is
assigned into an `int64` array cell. -/
def ratTrunc (q : ℚ) : ℤ := if 0 ≤ q then ⌊q⌋ else ⌈q⌉

/-- The Python built-in `round`: round half to even. -/
def pyround (q : ℚ) : ℤ :=
  let f := ⌊q⌋
  let r := q - f
  if r < 1/2 then f
  else if 1/2 < r then f + 1
  else if Even f then f else f + 1

/-! ### Fixed domain constants of `run_SEIR` (source lines 51–100) -/

def daysTotal : ℕ := 365

def E0 : ℚ := 1

def r0 : ℚ := 3

def r1 : ℚ := 11/10

def days_presymptomatic : ℚ := 5/2

def days_to_incubation : ℚ := 26/5

/-- Embedding of `sigma = 1.0 / (days_to_incubation - days_presymptomatic)`. -/
def sigma : ℚ := 1 / (days_to_incubation - days_presymptomatic)

def generation_time : ℚ := 23/5

/-- Embedding of `gamma = 1.0 / (2.0 * (generation_time - 1.0 / sigma))`. -/
def gamma : ℚ := 1 / (2 * (generation_time - 1 / sigma))

def percent_asymptomatic : ℚ := 35/100

def percent_cases_detected : ℚ := (1 - percent_asymptomatic) / 20

def timeInHospital : ℚ := 12

def timeInfected : ℚ := 1 / gamma

def communicationLag : ℚ := 2

def testLag : ℚ := 3

def symptomToHospitalLag : ℚ := 5

def hospitalToIcuLag : ℚ := 5

def infectionFatalityRateA : ℚ := 1/100

def infectionFatalityRateB : ℚ := infectionFatalityRateA * 3

def icuRate : ℚ := infectionFatalityRateA * 2

def beta0 : ℚ := r0 * gamma

def beta1 : ℚ := r1 * gamma

/-- Embedding of `days_before_lockdown = (date_of_lockdown - date_of_first_infection).days`
(source line 60); calendar dates are embedded as integer day numbers. -/
def days_before_lockdown (date_of_first_infection date_of_lockdown : ℤ) : ℤ :=
  date_of_lockdown - date_of_first_infection

/-! ### The ODE right-hand side (source lines 15–30) -/

/-- Embedding of `model(Y, x, N, beta0, days0, beta1, gamma, sigma)`:
the instantaneous derivative of the state `Y = (S, E, I, R)`. -/
def model (Y : ℚ × ℚ × ℚ × ℚ) (x N b0 days0 b1 g s : ℚ) : ℚ × ℚ × ℚ × ℚ :=
  let S := Y.1
  let E := Y.2.1
  let I := Y.2.2.1
  let beta := if x < days0 then b0 else b1
  (- beta * S * I / N, beta * S * I / N - s * E, s * E - g * I, g * I)

/-- The derivative written exactly as the equations of §4.2 of the specification state
them, for comparison with the source embedding `model`. -/
def model_spec (Y : ℚ × ℚ × ℚ × ℚ) (x N b0 days0 b1 g s : ℚ) : ℚ × ℚ × ℚ × ℚ :=
  let S := Y.1
  let E := Y.2.1
  let I := Y.2.2.1
  let beta := if x < days0 then b0 else b1
  (- (beta * S * I / N),
   beta * S * I / N - s * E,
   s * E - g * I,
   g * I)

/-- Sum of the four components of a state (or of a derivative). -/
def sum4 (Y : ℚ × ℚ × ℚ × ℚ) : ℚ := Y.1 + Y.2.1 + Y.2.2.1 + Y.2.2.2

/-! ### The integrator (source `solve`, lines 33–40) -/

/-- Modelled from the spec: `scipy.integrate.odeint` is an external numerical
library, not part of this repository; per the integrator section of the design the
solver advances the model over integer day steps from day 0 and outputs one
state per integer day index.  It is modelled as an explicit fixed-step Euler
integrator with step one day, starting from `N0 = (population - E0, E0, 0, 0)`
(source line 35). -/
def trajectory (population e0 b0 days0 b1 g s : ℚ) : ℕ → ℚ × ℚ × ℚ × ℚ
  | 0 => (population - e0, e0, 0, 0)
  | t + 1 =>
    let Y := trajectory population e0 b0 days0 b1 g s t
    let dY := model Y t population b0 days0 b1 g s
    (Y.1 + dY.1, Y.2.1 + dY.2.1, Y.2.2.1 + dY.2.2.1, Y.2.2.2 + dY.2.2.2)

/-- Embedding of `solve(model, population, E0, beta0, days0, beta1, gamma,
sigma, daysTotal)`: the four compartment trajectories sampled at integer days
`0 .. daysTotal-1`. -/
def solve (population e0 b0 days0 b1 g s : ℚ) (dt : ℕ) :
    List ℚ × List ℚ × List ℚ × List ℚ :=
  ((List.range dt).map fun t => (trajectory population e0 b0 days0 b1 g s t).1,
   (List.range dt).map fun t => (trajectory population e0 b0 days0 b1 g s t).2.1,
   (List.range dt).map fun t => (trajectory population e0 b0 days0 b1 g s t).2.2.1,
   (List.range dt).map fun t => (trajectory population e0 b0 days0 b1 g s t).2.2.2)

/-! ### Conservation -/

lemma sum4_model (Y : ℚ × ℚ × ℚ × ℚ) (x N b0 days0 b1 g s : ℚ) :
    sum4 (model Y x N b0 days0 b1 g s) = 0 := by
  simp only [model, sum4]
  ring

lemma sum4_trajectory (population e0 b0 days0 b1 g s : ℚ) (t : ℕ) :
    sum4 (trajectory population e0 b0 days0 b1 g s t) = population := by
  induction t with
  | zero => simp [trajectory, sum4]
  | succ n ih =>
    have h := sum4_model (trajectory population e0 b0 days0 b1 g s n)
      n population b0 days0 b1 g s
    simp only [trajectory, sum4] at *
    linarith

lemma getD_map_range (f : ℕ → ℚ) (d : ℚ) (n t : ℕ) (h : t < n) :
    ((List.range n).map f).getD t d = f t := by
  rw [List.getD_eq_getElem?_getD, List.getElem?_map, List.getElem?_range h]
  rfl

/-- Claim C1: for every day index `t` in `0 .. daysTotal-1` of a simulation
run, the sum `S[t] + E[t] + I[t] + R[t]` of the four compartment trajectories
produced by `solve` equals the input population exactly (the four derivative
components of `model` sum to zero, so the total is conserved by the
integrator by construction). -/
theorem claim_C1 (population e0 b0 days0 b1 g s : ℚ) (dt t : ℕ) (h : t < dt) :
    (solve population e0 b0 days0 b1 g s dt).1.getD t 0 +
    (solve population e0 b0 days0 b1 g s dt).2.1.getD t 0 +
    (solve population e0 b0 days0 b1 g s dt).2.2.1.getD t 0 +
    (solve population e0 b0 days0 b1 g s dt).2.2.2.getD t 0 = population := by
  simp only [solve]
  rw [getD_map_range _ _ _ _ h, getD_map_range _ _ _ _ h,
    getD_map_range _ _ _ _ h, getD_map_range _ _ _ _ h]
  have := sum4_trajectory population e0 b0 days0 b1 g s t
  simpa [sum4] using this

/-- Witness for C1 at a concrete input: population 10, one initial exposed,
day index 1 of a 3-day run. -/
theorem claim_C1_witness :
    1 < 3 ∧
    (solve 10 1 1 0 1 1 1 3).1.getD 1 0 +
    (solve 10 1 1 0 1 1 1 3).2.1.getD 1 0 +
    (solve 10 1 1 0 1 1 1 3).2.2.1.getD 1 0 +
    (solve 10 1 1 0 1 1 1 3).2.2.2.getD 1 0 = 10 :=
  ⟨by decide, claim_C1 10 1 1 0 1 1 1 3 1 (by decide)⟩

/-- Claim C2: for every state, time and parameter set, the derivative computed
by `model` is exactly the set of equations of the specification: `beta = beta0` when
`t < daysToSwitch` else `beta1`, `dS = -beta*S*I/N`, `dE = beta*S*I/N -
sigma*E`, `dI = sigma*E - gamma*I`, `dR = gamma*I`. -/
theorem claim_C2 (Y : ℚ × ℚ × ℚ × ℚ) (x N b0 days0 b1 g s : ℚ) :
    model Y x N b0 days0 b1 g s = model_spec Y x N b0 days0 b1 g s := by
  simp only [model, model_spec]
  ring_nf

/-! ### The death-estimation recurrence (source lines 120–127)

The source allocates `D = np.arange(daysTotal)`, an `int64` array, and then
assigns `D[i] = DPrev + IFR * (R[i] - RPrev)`: numpy casts the float value by
truncation toward zero when storing it, so each `D[i]` is an integer. -/

/-- The loop of source lines 123–127, carrying `RPrev` and `DPrev`, with the
truncation that the `int64` destination array imposes on each stored value. -/
def deathsAux (icu a b : ℚ) : List ℚ → List ℚ → ℚ → ℤ → List ℤ
  | r :: rt, u :: ut, RPrev, DPrev =>
    let IFR := if u ≤ icu then a else b
    let d := ratTrunc ((DPrev : ℚ) + IFR * (r - RPrev))
    d :: deathsAux icu a b rt ut r d
  | _, _, _, _ => []

/-- Embedding of the death estimator of `run_SEIR` (source lines 120–127):
`R` is the recovered trajectory, `U` the ICU-demand series, `icu` the ICU
capacity, `a`/`b` the low/high infection fatality rates. -/
def estimate_deaths (R U : List ℚ) (icu a b : ℚ) : List ℤ :=
  deathsAux icu a b R U 0 0

/-- The death-estimation recurrence exactly as §4.5 of the specification states
it, with no rounding of the accumulated values, for comparison with the source
embedding `estimate_deaths`. -/
def deathsAuxSpec (icu a b : ℚ) : List ℚ → List ℚ → ℚ → ℚ → List ℚ
  | r :: rt, u :: ut, RPrev, DPrev =>
    let IFR := if u ≤ icu then a else b
    let d := DPrev + IFR * (r - RPrev)
    d :: deathsAuxSpec icu a b rt ut r d
  | _, _, _, _ => []

/-- The unrounded death series of the specification. -/
def estimate_deaths_spec (R U : List ℚ) (icu a b : ℚ) : List ℚ :=
  deathsAuxSpec icu a b R U 0 0

/-- Claim C3: the death recurrence of the code does not compute
`D[t] = DPrev + IFR[t] * (R[t] - RPrev)` as stated: the `int64` destination
array truncates every stored value, so on `R = [0, 5, 12, 20]` with ICU
demand always below capacity the computed series differs from the stated
recurrence (`[0, 0, 0, 0]` versus `[0, 1/20, 3/25, 1/5]`). -/
theorem claim_C3 :
    (estimate_deaths [0, 5, 12, 20] [0, 0, 0, 0] 100 (1/100) (3/100)).map
        (fun z => (z : ℚ)) ≠
      estimate_deaths_spec [0, 5, 12, 20] [0, 0, 0, 0] 100 (1/100) (3/100) := by
  norm_num [estimate_deaths, estimate_deaths_spec, deathsAux, deathsAuxSpec, ratTrunc]

/-- Claim C4: on the recovered trajectory `R = [0, 5, 12, 20]` with ICU demand
always below capacity and `fatalityRateLow = 0.01`, the code produces
`[0, 0, 0, 0]` (each stored value truncated by the `int64` array), not the
claimed unrounded series, which the recurrence of the specification does produce:
`[0, 0.05, 0.12, 0.20] = [0, 1/20, 3/25, 1/5]`. -/
theorem claim_C4 :
    estimate_deaths [0, 5, 12, 20] [0, 0, 0, 0] 100 (1/100) (3/100) =
        [0, 0, 0, 0] ∧
      estimate_deaths_spec [0, 5, 12, 20] [0, 0, 0, 0] 100 (1/100) (3/100) =
        [0, 1/20, 3/25, 1/5] := by
  constructor <;>
    norm_num [estimate_deaths, estimate_deaths_spec, deathsAux, deathsAuxSpec, ratTrunc]

/-! ### Monotonicity of the death series -/

lemma le_ratTrunc_add (DPrev : ℤ) (x : ℚ) (hx : 0 ≤ x) :
    DPrev ≤ ratTrunc ((DPrev : ℚ) + x) := by
  unfold ratTrunc
  split
  · rw [Int.le_floor]
    linarith
  · have h1 : ((DPrev : ℤ) : ℚ) ≤ (DPrev : ℚ) + x := by linarith
    have h2 : ((DPrev : ℚ) + x) ≤ ((⌈(DPrev : ℚ) + x⌉ : ℤ) : ℚ) := Int.le_ceil _
    exact_mod_cast h1.trans h2

lemma chain_deathsAux (icu a b : ℚ) (ha : 0 ≤ a) (hb : 0 ≤ b) :
    ∀ (Rs Us : List ℚ) (RPrev : ℚ) (DPrev : ℤ), List.Chain' (· ≤ ·) (RPrev :: Rs) →
      List.Chain' (· ≤ ·) (DPrev :: deathsAux icu a b Rs Us RPrev DPrev)
  | [], _, _, _, _ => by simp [deathsAux]
  | _ :: _, [], _, _, _ => by simp [deathsAux]
  | r :: rt, u :: ut, RPrev, DPrev, hR => by
    rw [List.chain'_cons] at hR
    have hIFR : 0 ≤ (if u ≤ icu then a else b) := by
      split <;> assumption
    have hstep : DPrev ≤ ratTrunc ((DPrev : ℚ) + (if u ≤ icu then a else b) * (r - RPrev)) :=
      le_ratTrunc_add DPrev _ (mul_nonneg hIFR (by linarith [hR.1]))
    have hrest := chain_deathsAux icu a b ha hb rt ut r
      (ratTrunc ((DPrev : ℚ) + (if u ≤ icu then a else b) * (r - RPrev))) hR.2
    simp only [deathsAux]
    exact List.chain'_cons.mpr ⟨hstep, hrest⟩

/-- Claim C5: for every non-decreasing recovered trajectory `R` and
non-negative fatality rates, the death series produced by the recurrence
(before the final delay shift) is non-decreasing. -/
theorem claim_C5 (R U : List ℚ) (icu a b : ℚ) (ha : 0 ≤ a) (hb : 0 ≤ b)
    (hR : List.Chain' (· ≤ ·) R) :
    List.Chain' (· ≤ ·) (estimate_deaths R U icu a b) := by
  unfold estimate_deaths
  match R, U, hR with
  | [], _, _ => simp [deathsAux]
  | _ :: _, [], _ => simp [deathsAux]
  | r :: rt, u :: ut, hR =>
    simp only [deathsAux]
    exact chain_deathsAux icu a b ha hb rt ut r _ hR

/-- Witness for C5 at a concrete input: `R = [1, 2]` non-decreasing, both
rates `1/2`, ICU demand `[0, 0]` against capacity `1`. -/
theorem claim_C5_witness :
    (0 : ℚ) ≤ 1/2 ∧ List.Chain' (· ≤ ·) [(1 : ℚ), 2] ∧
      List.Chain' (· ≤ ·) (estimate_deaths [1, 2] [0, 0] 1 (1/2) (1/2)) :=
  ⟨by norm_num, by norm_num [List.chain'_cons],
   claim_C5 [1, 2] [0, 0] 1 (1/2) (1/2) (by norm_num) (by norm_num)
     (by norm_num [List.chain'_cons])⟩

/-! ### The delay transform (`shared.delay`)

The file `shared.py` is not part of the sources at hand; only its call sites
are.  The transform is therefore modelled from the specification. -/

/-- Reading a series at an integer index: zero outside the valid range. -/
def getQ (s : List ℚ) (k : ℤ) : ℚ := if 0 ≤ k then s.getD k.toNat 0 else 0

/-- Modelled from the spec: the value at day `t` of `shared.delay(series,
shiftDays)` (the file `shared.py` is missing from the sources): the source
value at `t - shiftDays` when that is `>= 0`, else `0`; a fractional shift
linearly interpolates between the two integer-indexed samples bracketing
`t - shiftDays`. -/
def delayVal (series : List ℚ) (shiftDays : ℚ) (t : ℕ) : ℚ :=
  let u : ℚ := (t : ℚ) - shiftDays
  if u < 0 then 0
  else
    let k : ℤ := ⌊u⌋
    let frac : ℚ := u - (k : ℚ)
    (1 - frac) * getQ series k + frac * getQ series (k + 1)

/-- Modelled from the spec: `shared.delay(series, shiftDays)` produces a new
series of the same length whose entry at `t` is `delayVal series shiftDays t`. -/
def delay (series : List ℚ) (shiftDays : ℚ) : List ℚ :=
  List.ofFn fun t : Fin series.length => delayVal series shiftDays (t : ℕ)

lemma delayVal_zero (series : List ℚ) (t : ℕ) :
    delayVal series 0 t = series.getD t 0 := by
  unfold delayVal getQ
  rw [sub_zero]
  rw [if_neg (not_lt.mpr (by positivity))]
  simp

/-- Claim C9: applying the delay transform with a shift of zero days returns
the input series unchanged: `delay series 0 = series`. -/
theorem claim_C9 (series : List ℚ) : delay series 0 = series := by
  unfold delay
  have h : (fun t : Fin series.length => delayVal series 0 (t : ℕ)) =
      fun t : Fin series.length => series.get t := by
    funext t
    rw [delayVal_zero, List.getD_eq_getElem?_getD, List.getElem?_eq_getElem t.isLt]
    rfl
  rw [h, List.ofFn_get]

/-! ### Intervention from day 0 when the lockdown precedes the first infection -/

/-- Claim C6: when the lockdown date is on or before the first-infection
date, the derived switch day is `≤ 0` and at every sampled time `x ≥ 0` the
derivative is the one computed with `beta1`: the value of `beta0` is never
applied (and `run_SEIR` has no rejection path, so the run is accepted). -/
theorem claim_C6 (dfirst dlock : ℤ) (h : dlock ≤ dfirst) :
    days_before_lockdown dfirst dlock ≤ 0 ∧
      ∀ (Y : ℚ × ℚ × ℚ × ℚ) (x N b0 b1 g s : ℚ), 0 ≤ x →
        model Y x N b0 ((days_before_lockdown dfirst dlock : ℤ) : ℚ) b1 g s =
          model Y x N b1 ((days_before_lockdown dfirst dlock : ℤ) : ℚ) b1 g s := by
  have hd : days_before_lockdown dfirst dlock ≤ 0 := by
    unfold days_before_lockdown
    omega
  refine ⟨hd, fun Y x N b0 b1 g s hx => ?_⟩
  have hdq : ((days_before_lockdown dfirst dlock : ℤ) : ℚ) ≤ 0 := by
    exact_mod_cast hd
  simp only [model]
  rw [if_neg (not_lt.mpr (hdq.trans hx)), if_neg (not_lt.mpr (hdq.trans hx))]

/-- Witness for C6 at a concrete input: first infection on day 10, lockdown
on day 5, sampled at time `x = 0`. -/
theorem claim_C6_witness :
    days_before_lockdown 10 5 ≤ 0 ∧
      model (1, 1, 1, 1) 0 1 2 ((days_before_lockdown 10 5 : ℤ) : ℚ) 3 1 1 =
        model (1, 1, 1, 1) 0 1 3 ((days_before_lockdown 10 5 : ℤ) : ℚ) 3 1 1 :=
  ⟨(claim_C6 10 5 (by decide)).1,
   (claim_C6 10 5 (by decide)).2 (1, 1, 1, 1) 0 1 2 3 1 1 le_rfl⟩

/-! ### The growth rate `s1` (source lines 98–99) -/

/-- The fixed `sigma` as a real number. -/
noncomputable def sigmaR : ℝ := (sigma : ℝ)

/-- The fixed `gamma` as a real number. -/
noncomputable def gammaR : ℝ := (gamma : ℝ)

/-- Embedding of `s1 = 0.5 * (-(sigma + gamma) + math.sqrt((sigma + gamma) ** 2
+ 4 * sigma * gamma * (r0 - 1)))`, as a function of the reproduction number. -/
noncomputable def s1 (r0v : ℝ) : ℝ :=
  0.5 * (-(sigmaR + gammaR) +
    Real.sqrt ((sigmaR + gammaR) ^ 2 + 4 * sigmaR * gammaR * (r0v - 1)))

lemma sigma_eq : sigma = 10/27 := by
  norm_num [sigma, days_to_incubation, days_presymptomatic]

lemma gamma_eq : gamma = 5/19 := by
  rw [gamma, sigma_eq]
  norm_num [generation_time]

lemma sigmaR_eq : sigmaR = 10/27 := by
  rw [sigmaR, sigma_eq]
  norm_num

lemma gammaR_eq : gammaR = 5/19 := by
  rw [gammaR, gamma_eq]
  norm_num

/-- Claim C8: with the fixed module constants `sigma` and `gamma`, the derived growth
rate `s1` is strictly positive at `r0 = 3` and strictly negative at
`r0 = 0.5`. -/
theorem claim_C8 : 0 < s1 3 ∧ s1 (1/2) < 0 := by
  constructor
  · have hlt : sigmaR + gammaR <
        Real.sqrt ((sigmaR + gammaR) ^ 2 + 4 * sigmaR * gammaR * ((3:ℝ) - 1)) := by
      refine (Real.lt_sqrt (by rw [sigmaR_eq, gammaR_eq]; norm_num)).mpr ?_
      rw [sigmaR_eq, gammaR_eq]
      norm_num
    have h3 : (0:ℝ) < -(sigmaR + gammaR) +
        Real.sqrt ((sigmaR + gammaR) ^ 2 + 4 * sigmaR * gammaR * ((3:ℝ) - 1)) := by
      linarith [hlt]
    unfold s1
    rw [show (0.5 : ℝ) = 1/2 by norm_num]
    exact mul_pos (by norm_num) h3
  · have hlt : Real.sqrt ((sigmaR + gammaR) ^ 2 + 4 * sigmaR * gammaR * ((1/2:ℝ) - 1)) <
        sigmaR + gammaR := by
      refine (Real.sqrt_lt' (by rw [sigmaR_eq, gammaR_eq]; norm_num)).mpr ?_
      rw [sigmaR_eq, gammaR_eq]
      norm_num
    have h3 : -(sigmaR + gammaR) +
        Real.sqrt ((sigmaR + gammaR) ^ 2 + 4 * sigmaR * gammaR * ((1/2:ℝ) - 1)) < 0 := by
      linarith [hlt]
    unfold s1
    rw [show (0.5 : ℝ) = 1/2 by norm_num]
    exact mul_neg_of_pos_of_neg (by norm_num) h3

/-! ### The full pipeline `run_SEIR` (source lines 43–149)

The output is the long-format record set produced by `df.melt`: for each of
the five observables, one record per day, in the column order
susceptible, exposed, infectious, recovered, deaths.  `df.applymap` rounds
every float cell with the Python `round` (half to even); the integer `days`
column and the dates are left unchanged. -/

/-- The five observables of the output record set. -/
inductive Obs where
  | susceptible
  | exposed
  | infectious
  | recovered
  | deaths
deriving DecidableEq

/-- One row of the melted output: calendar date (as an integer day number),
observable name, rounded count. -/
structure Record where
  date : ℤ
  type : Obs
  count : ℤ
deriving DecidableEq

/-- Embedding of `run_SEIR(population, intensive_units,
date_of_first_infection, date_of_lockdown)`: derives the parameters,
integrates the model, applies the delay transforms, runs the death
recurrence, and melts the rounded data frame into long-format records. -/
def run_SEIR (population intensive_units : ℚ)
    (date_of_first_infection date_of_lockdown : ℤ) : List Record :=
  let days0 : ℚ :=
    ((days_before_lockdown date_of_first_infection date_of_lockdown : ℤ) : ℚ)
  let sol := solve population E0 beta0 days0 beta1 gamma sigma daysTotal
  let S := sol.1
  let Ecomp := sol.2.1
  let Icomp := sol.2.2.1
  let Rcomp := sol.2.2.2
  let F := Icomp.map fun v => v * percent_cases_detected
  let U := Icomp.map fun v => v * icuRate * timeInHospital / timeInfected
  let P := Icomp.map fun v => v / population * 1000000
  let F2 := delay F
    (days_presymptomatic + symptomToHospitalLag + testLag + communicationLag)
  let U2 := delay U (days_presymptomatic + symptomToHospitalLag + hospitalToIcuLag)
  let U3 := delay U2
    ((pyround ((timeInHospital / timeInfected - 1) * timeInfected) : ℤ) : ℚ)
  let D := estimate_deaths Rcomp U3 intensive_units
    infectionFatalityRateA infectionFatalityRateB
  let D2 := delay (D.map fun z => (z : ℚ))
    (- timeInfected + days_presymptomatic + symptomToHospitalLag +
      timeInHospital + communicationLag)
  ((List.range daysTotal).map fun t =>
      ⟨date_of_first_infection + t, Obs.susceptible, pyround (S.getD t 0)⟩) ++
  ((List.range daysTotal).map fun t =>
      ⟨date_of_first_infection + t, Obs.exposed, pyround (Ecomp.getD t 0)⟩) ++
  ((List.range daysTotal).map fun t =>
      ⟨date_of_first_infection + t, Obs.infectious, pyround (Icomp.getD t 0)⟩) ++
  ((List.range daysTotal).map fun t =>
      ⟨date_of_first_infection + t, Obs.recovered, pyround (Rcomp.getD t 0)⟩) ++
  ((List.range daysTotal).map fun t =>
      ⟨date_of_first_infection + t, Obs.deaths, pyround (D2.getD t 0)⟩)

lemma run_SEIR_length (population intensive_units : ℚ) (d0 d1 : ℤ) :
    (run_SEIR population intensive_units d0 d1).length = 5 * daysTotal := by
  simp only [run_SEIR, List.length_append, List.length_map, List.length_range]
  ring

/-- Claim C7 is refuted by the code: `run_SEIR` performs no validation of its
inputs; with a non-positive ICU capacity the run completes and produces the
full output series (the capacity only selects the fatality-rate branch). -/
theorem claim_C7 (population intensive_units : ℚ) (d0 d1 : ℤ)
    (h : intensive_units ≤ 0) :
    (run_SEIR population intensive_units d0 d1).length = 5 * 365 :=
  run_SEIR_length population intensive_units d0 d1

/-- Witness for the amended C7: ICU capacity `0` (non-positive), population
one million. -/
theorem claim_C7_witness :
    (0 : ℚ) ≤ 0 ∧ (run_SEIR 1000000 0 0 50).length = 5 * 365 :=
  ⟨le_rfl, claim_C7 1000000 0 0 50 le_rfl⟩

/-- Counterexample to C7 as stated: with ICU capacity `0` (non-positive) the
run produces a non-empty output series instead of failing fast with a
configuration error. -/
theorem claim_C7_counterexample :
    (run_SEIR 1000000 0 0 50).length ≠ 0 := by
  rw [run_SEIR_length]
  decide

/-- Claim C10: for every input, `run_SEIR` simulates a fixed horizon of
`daysTotal = 365` days with `E0 = 1`, `r0 = 3.0` and `r1 = 1.1` (fixed module
constants, not parameters of `run_SEIR`), and the returned record set has
`5 * 365` records: for each of the five observables, exactly the `365`
consecutive calendar dates starting at the first-infection date, in day
order. -/
theorem claim_C10 (population intensive_units : ℚ) (d0 d1 : ℤ) :
    daysTotal = 365 ∧ E0 = 1 ∧ r0 = 3 ∧ r1 = 11/10 ∧
      (run_SEIR population intensive_units d0 d1).length = 5 * 365 ∧
      ∀ o : Obs,
        ((run_SEIR population intensive_units d0 d1).filter
            fun r => decide (Record.type r = o)).map Record.date =
          (List.range 365).map fun t => d0 + (t : ℤ) := by
  refine ⟨rfl, rfl, rfl, rfl, run_SEIR_length population intensive_units d0 d1, ?_⟩
  intro o
  cases o <;>
    simp [run_SEIR, daysTotal, List.filter_append, List.filter_map,
      Function.comp_def, List.map_map, ← List.map_eq_flatMap]

end SEIR
